import Mathlib

/-!
Shallow embedding of `src/internal/dispatcher/worker.go` from the
Grobid-Helper-Go-App repository.

The file models the worker pipeline `processMessage` (decode → rate gate →
S3 fetch → Grobid extraction → tidy → cross-reference → timestamp stamp →
visibility extension), the S3 download helper `downloadFileFromS3`, and the
worker receive loop.  External collaborators (the S3 backend, the Grobid
service, the `parsing` package functions and the SQS client) are modelled as
an environment of result-returning functions, since the Go code only
branches on their success or failure.  Time instants are natural numbers;
durations are integers (Go's `time.Duration` is a signed integer count).

Each invocation of `processMessage` also returns the list of observable
events it performed, in program order: mutex lock/unlock, the read of the
shared `lastRequestTime`, the sleep, each external call, and the write
(stamp) of `lastRequestTime`.  Claims about call counts, call ordering and
lock discipline are stated over this event list.
-/

namespace GrobidHelper

/-- Values of Go's `interface{}` after `json.Unmarshal`: a JSON value.  The
type assertion `.(string)` in the Go code succeeds exactly on the `jstr`
constructor. -/
inductive JsonValue where
  | jstr (s : String)
  | jnum (n : Int)
  | jbool (b : Bool)
  | jnull
  | jobj (fields : List (String × JsonValue))
  | jarr (elems : List JsonValue)
deriving Repr

/-- Go map indexing `msgData[k]` on the decoded `map[string]interface{}`:
`some v` when the key is present, `none` (Go: nil interface value) when
absent. -/
def mapGet (msgData : List (String × JsonValue)) (k : String) : Option JsonValue :=
  (msgData.find? (fun p => p.1 == k)).map Prod.snd

/-- Go type assertion `v.(string)` on a (possibly nil) interface value:
`some s` when the dynamic type is string, `none` when the assertion fails.
A failed single-valued type assertion is a runtime panic in Go; the caller
of this helper maps `none` to the `panicked` outcome. -/
def assertString : Option JsonValue → Option String
  | some (JsonValue.jstr s) => some s
  | _ => none

/-- An SQS message as `processMessage` sees it.  `body` is the result of
`json.Unmarshal([]byte(*message.Body), &msgData)`: `none` when the body is
not valid JSON for a `map[string]interface{}` (unmarshal error), `some m`
with the decoded key/value map otherwise. -/
structure SqsMessage where
  body : Option (List (String × JsonValue))
  receiptHandle : String
deriving Repr

/-- The `*s3.GetObjectOutput` of a successful `GetObject` call: a response
body stream whose full drain (`ioutil.ReadAll`) either yields the bytes or
fails, and whose `Close()` either succeeds (`none`) or returns an error. -/
structure S3Object where
  readAll : Except String (List Nat)
  closeErr : Option String

/-- The argument record of `sqs.ChangeMessageVisibilityInput`. -/
structure ChangeMessageVisibilityInput where
  queueUrl : String
  receiptHandle : String
  visibilityTimeout : Int
deriving Repr, DecidableEq

/-- The tidy Grobid response produced by `parsing.TidyUpGrobidResponse`;
the pipeline only reads its `Doi` field. -/
structure TidyGrobidResponse where
  Doi : String
deriving Repr, DecidableEq

/-- Environment of external collaborators for one `processMessage`
invocation.  `now` is the instant read by `time.Since(lastRequestTime)` at
the gate; `now2` is the (later) instant read by `time.Now()` at the stamp.
Crude service payloads are opaque and modelled as strings. -/
structure Env where
  now : Nat
  now2 : Nat
  getObject : String → String → Except String S3Object
  sendPDF2Grobid : List Nat → Except String String
  tidyUpGrobidResponse : String → Except String TidyGrobidResponse
  crossReferenceData : String → Except String String
  tidyCrossRefData : String → String
  changeMessageVisibility : ChangeMessageVisibilityInput → Except String Unit

/-- Observable events of one `processMessage` invocation, in program
order. -/
inductive Event where
  | lockAcquire
  | lockRelease
  | readLastRequestTime (elapsed : Int)
  | sleep (d : Int)
  | s3Fetch (bucket key : String)
  | grobidExtract (bytes : List Nat)
  | tidyGrobidCall (crude : String)
  | crossRefCall (doi : String)
  | tidyCrossRefCall (crude : String)
  | stampLastRequestTime (t : Nat)
  | changeVisibility (queueUrl receiptHandle : String) (timeout : Int)
deriving Repr, DecidableEq

/-- Sub-events of one `downloadFileFromS3` invocation. -/
inductive S3Event where
  | getObjectCall (bucket key : String)
  | readAllCall
  | closeCall (closeErr : Option String)
deriving Repr, DecidableEq

/-- Termination status of one `processMessage` invocation.  `panicked k`
models the Go runtime panic raised by a failed type assertion
`msgData[k].(string)` (nothing in the worker recovers, so a panic
terminates the worker goroutine and with it the process).  `completed ok`
is normal completion, with `ok = false` when the final
`ChangeMessageVisibility` call returned an error (logged, non-fatal). -/
inductive Outcome where
  | decodeError
  | panicked (key : String)
  | fetchFailed
  | extractFailed
  | tidyFailed
  | crossRefFailed
  | completed (extensionOk : Bool)
deriving Repr, DecidableEq

/-- Result of one `processMessage` invocation: its outcome, its event
trace, and the final value of the shared `lastRequestTime`. -/
structure ProcResult where
  outcome : Outcome
  events : List Event
  lastRequestTime : Nat
deriving Repr, DecidableEq

/-- Lines 84–92 of worker.go: under the mutex, `time.Since(lastRequestTime)`
is read; outside the mutex, if the elapsed time is below `minGap` the worker
sleeps for the remainder.  Returns `some d` when a sleep of duration `d`
happens, `none` when no sleep happens. -/
def rateGateSleep (lastRequestTime now : Nat) (minGap : Int) : Option Int :=
  let timeSinceLastRequest : Int := (now : Int) - (lastRequestTime : Int)
  if timeSinceLastRequest < minGap then some (minGap - timeSinceLastRequest) else none

/-- Event footprint of lines 84–92: lock, read of the shared timestamp,
unlock, then (outside the lock) the sleep if one is needed. -/
def gateEvents (lastRequestTime now : Nat) (minGap : Int) : List Event :=
  [Event.lockAcquire,
   Event.readLastRequestTime ((now : Int) - (lastRequestTime : Int)),
   Event.lockRelease] ++
  (match rateGateSleep lastRequestTime now minGap with
   | some d => [Event.sleep d]
   | none => [])

/-- Lines 49–69 of worker.go, `downloadFileFromS3`: `GetObject`, then a
deferred `Body.Close()`, then `ioutil.ReadAll`.  The deferred close runs on
every exit path on which the stream was opened — after the read, before
returning — whether the read succeeds or fails; its error is only printed.
Returns the function result together with the sub-event trace. -/
def downloadFileFromS3 (env : Env) (bucket path : String) :
    Except String (List Nat) × List S3Event :=
  match env.getObject bucket path with
  | Except.error e => (Except.error e, [S3Event.getObjectCall bucket path])
  | Except.ok output =>
    match output.readAll with
    | Except.error e =>
        (Except.error e,
         [S3Event.getObjectCall bucket path, S3Event.readAllCall,
          S3Event.closeCall output.closeErr])
    | Except.ok fileContent =>
        (Except.ok fileContent,
         [S3Event.getObjectCall bucket path, S3Event.readAllCall,
          S3Event.closeCall output.closeErr])

/-- Lines 71–141 of worker.go, `processMessage`: decode the JSON body
(unmarshal failure → logged decode error, return); type-assert the three
fields `s3Location`, `user_id`, `screen_id` (failure → runtime panic); rate
gate (read under lock, sleep outside lock); S3 fetch; Grobid extraction;
tidy; cross-reference; tidy cross-ref (result discarded); stamp
`lastRequestTime = time.Now()` under lock; `ChangeMessageVisibility` with
the message's receipt handle and a 30 second window (error logged,
non-fatal).  Every stage failure returns immediately. -/
def processMessage (env : Env) (message : SqsMessage)
    (sqsURL s3Bucket : String) (minGap : Int) (lastRequestTime : Nat) :
    ProcResult :=
  match message.body with
  | none => ⟨Outcome.decodeError, [], lastRequestTime⟩
  | some msgData =>
    match assertString (mapGet msgData "s3Location") with
    | none => ⟨Outcome.panicked "s3Location", [], lastRequestTime⟩
    | some path =>
      match assertString (mapGet msgData "user_id") with
      | none => ⟨Outcome.panicked "user_id", [], lastRequestTime⟩
      | some _userID =>
        match assertString (mapGet msgData "screen_id") with
        | none => ⟨Outcome.panicked "screen_id", [], lastRequestTime⟩
        | some _screenID =>
          match (downloadFileFromS3 env s3Bucket path).1 with
          | Except.error _ =>
              ⟨Outcome.fetchFailed,
               gateEvents lastRequestTime env.now minGap ++
                 [Event.s3Fetch s3Bucket path],
               lastRequestTime⟩
          | Except.ok fileContent =>
            match env.sendPDF2Grobid fileContent with
            | Except.error _ =>
                ⟨Outcome.extractFailed,
                 gateEvents lastRequestTime env.now minGap ++
                   [Event.s3Fetch s3Bucket path,
                    Event.grobidExtract fileContent],
                 lastRequestTime⟩
            | Except.ok crudeGrobidResponse =>
              match env.tidyUpGrobidResponse crudeGrobidResponse with
              | Except.error _ =>
                  ⟨Outcome.tidyFailed,
                   gateEvents lastRequestTime env.now minGap ++
                     [Event.s3Fetch s3Bucket path,
                      Event.grobidExtract fileContent,
                      Event.tidyGrobidCall crudeGrobidResponse],
                   lastRequestTime⟩
              | Except.ok tidyGrobidResponse =>
                match env.crossReferenceData tidyGrobidResponse.Doi with
                | Except.error _ =>
                    ⟨Outcome.crossRefFailed,
                     gateEvents lastRequestTime env.now minGap ++
                       [Event.s3Fetch s3Bucket path,
                        Event.grobidExtract fileContent,
                        Event.tidyGrobidCall crudeGrobidResponse,
                        Event.crossRefCall tidyGrobidResponse.Doi],
                     lastRequestTime⟩
                | Except.ok crudeCrossRefResponse =>
                  let fullEvents :=
                    gateEvents lastRequestTime env.now minGap ++
                      [Event.s3Fetch s3Bucket path,
                       Event.grobidExtract fileContent,
                       Event.tidyGrobidCall crudeGrobidResponse,
                       Event.crossRefCall tidyGrobidResponse.Doi,
                       Event.tidyCrossRefCall crudeCrossRefResponse,
                       Event.lockAcquire,
                       Event.stampLastRequestTime env.now2,
                       Event.lockRelease,
                       Event.changeVisibility sqsURL message.receiptHandle 30]
                  match env.changeMessageVisibility
                      ⟨sqsURL, message.receiptHandle, 30⟩ with
                  | Except.error _ =>
                      ⟨Outcome.completed false, fullEvents, env.now2⟩
                  | Except.ok _ =>
                      ⟨Outcome.completed true, fullEvents, env.now2⟩

/-- Lines 36–39 of worker.go: the worker loop, receiving messages one at a
time and processing them sequentially, threading the shared
`lastRequestTime`.  A runtime panic inside `processMessage` is not
recovered anywhere, so it escapes the loop and no further message is
processed; every other outcome only ends the current message's attempt. -/
def workerRun (env : Env) (msgs : List SqsMessage)
    (sqsURL s3Bucket : String) (minGap : Int) (lastRequestTime : Nat) :
    List Outcome × Nat :=
  match msgs with
  | [] => ([], lastRequestTime)
  | msg :: rest =>
    let r := processMessage env msg sqsURL s3Bucket minGap lastRequestTime
    match r.outcome with
    | Outcome.panicked k => ([Outcome.panicked k], r.lastRequestTime)
    | o =>
      let tail := workerRun env rest sqsURL s3Bucket minGap r.lastRequestTime
      (o :: tail.1, tail.2)

/-- Event classifiers used by the ordering and counting statements. -/
def isAcquireEvent : Event → Bool
  | Event.readLastRequestTime _ => true
  | Event.sleep _ => true
  | _ => false

def isFetchEvent : Event → Bool
  | Event.s3Fetch _ _ => true
  | _ => false

def isExtractEvent : Event → Bool
  | Event.grobidExtract _ => true
  | _ => false

def isTidyEvent : Event → Bool
  | Event.tidyGrobidCall _ => true
  | _ => false

def isCrossRefEvent : Event → Bool
  | Event.crossRefCall _ => true
  | _ => false

def isStampEvent : Event → Bool
  | Event.stampLastRequestTime _ => true
  | _ => false

def isExtensionEvent : Event → Bool
  | Event.changeVisibility _ _ _ => true
  | _ => false

def isSleepEvent : Event → Bool
  | Event.sleep _ => true
  | _ => false

/-- Any event that is a call to an external collaborator (S3 fetch, Grobid
extraction, tidy, cross-reference, tidy-cross-ref, visibility
extension). -/
def isDownstreamCall : Event → Bool
  | Event.s3Fetch _ _ => true
  | Event.grobidExtract _ => true
  | Event.tidyGrobidCall _ => true
  | Event.crossRefCall _ => true
  | Event.tidyCrossRefCall _ => true
  | Event.changeVisibility _ _ _ => true
  | _ => false

def countEvents (p : Event → Bool) (evts : List Event) : Nat :=
  (evts.filter p).length

/-- Checks that no event satisfying `before` occurs anywhere after an event
satisfying `after`, i.e. every `before`-event precedes every
`after`-event. -/
def allPrecede (before after : Event → Bool) : List Event → Bool
  | [] => true
  | e :: rest =>
    (if after e then !(rest.any before) else true) && allPrecede before after rest

/-- Checks the mutex discipline of a trace, tracking the lock depth: the
timestamp read and the timestamp stamp happen at depth 1 (inside the
critical section), every sleep happens at depth 0 (outside it), and the
depth never goes negative. -/
def lockDiscipline : Nat → List Event → Bool
  | _, [] => true
  | d, Event.lockAcquire :: rest => lockDiscipline (d + 1) rest
  | d, Event.lockRelease :: rest =>
      (if d = 0 then false else lockDiscipline (d - 1) rest)
  | d, Event.sleep _ :: rest => d == 0 && lockDiscipline d rest
  | d, Event.readLastRequestTime _ :: rest => d == 1 && lockDiscipline d rest
  | d, Event.stampLastRequestTime _ :: rest => d == 1 && lockDiscipline d rest
  | d, _ :: rest => lockDiscipline d rest

def isReadEvent : Event → Bool
  | Event.readLastRequestTime _ => true
  | _ => false

def isGetObjectEvent : S3Event → Bool
  | S3Event.getObjectCall _ _ => true
  | _ => false

/-- Events of the full success path of `processMessage` (every stage call
made, timestamp stamped, extension requested). -/
def successEvents (env : Env) (receiptHandle path sqsURL s3Bucket : String)
    (minGap : Int) (lastRequestTime : Nat) (fileContent : List Nat)
    (crude doi crudeXref : String) : List Event :=
  gateEvents lastRequestTime env.now minGap ++
    [Event.s3Fetch s3Bucket path,
     Event.grobidExtract fileContent,
     Event.tidyGrobidCall crude,
     Event.crossRefCall doi,
     Event.tidyCrossRefCall crudeXref,
     Event.lockAcquire,
     Event.stampLastRequestTime env.now2,
     Event.lockRelease,
     Event.changeVisibility sqsURL receiptHandle 30]

/-! Concrete fixtures used by witnesses and counterexamples. -/

/-- A healthy S3 object: the stream drains to three bytes and closes
cleanly. -/
def okObject : S3Object :=
  ⟨Except.ok [1, 2, 3], none⟩

/-- Environment in which every external call succeeds. -/
def envOK : Env where
  now := 100
  now2 := 101
  getObject := fun _ _ => Except.ok okObject
  sendPDF2Grobid := fun _ => Except.ok "crudeGrobid"
  tidyUpGrobidResponse := fun _ => Except.ok ⟨"10.1/x"⟩
  crossReferenceData := fun _ => Except.ok "crudeXref"
  tidyCrossRefData := fun s => s
  changeMessageVisibility := fun _ => Except.ok ()

/-- Environment in which the S3 fetch fails with NotFound. -/
def envNotFound : Env :=
  { envOK with getObject := fun _ _ => Except.error "NotFound" }

/-- Environment in which the tidy (normalization) stage fails after a
successful extraction. -/
def envTidyFail : Env :=
  { envOK with tidyUpGrobidResponse := fun _ => Except.error "malformed" }

/-- Environment in which only the final visibility-extension call fails. -/
def envVisFail : Env :=
  { envOK with changeMessageVisibility := fun _ => Except.error "expired" }

/-- A well-formed message: all three required fields present as strings. -/
def msgGood : SqsMessage :=
  ⟨some [("s3Location", JsonValue.jstr "docs/1.pdf"),
         ("user_id", JsonValue.jstr "u1"),
         ("screen_id", JsonValue.jstr "s1")], "rh1"⟩

/-- The same message as `msgGood` except for the `user_id` and `screen_id`
values. -/
def msgAltIds : SqsMessage :=
  ⟨some [("s3Location", JsonValue.jstr "docs/1.pdf"),
         ("user_id", JsonValue.jstr "u9"),
         ("screen_id", JsonValue.jstr "s9")], "rh1"⟩

/-- A message whose body is valid JSON but is missing `screen_id`. -/
def msgMissingScreen : SqsMessage :=
  ⟨some [("s3Location", JsonValue.jstr "docs/1.pdf"),
         ("user_id", JsonValue.jstr "u1")], "rh1"⟩

/-- A message whose body is not valid JSON (unmarshal fails). -/
def msgBadJson : SqsMessage :=
  ⟨none, "rh2"⟩

theorem gateEvents_eq_some {last now : Nat} {g d : Int}
    (h : rateGateSleep last now g = some d) :
    gateEvents last now g =
      [Event.lockAcquire, Event.readLastRequestTime ((now : Int) - last),
       Event.lockRelease, Event.sleep d] := by
  simp only [gateEvents, h]
  rfl

theorem gateEvents_eq_none {last now : Nat} {g : Int}
    (h : rateGateSleep last now g = none) :
    gateEvents last now g =
      [Event.lockAcquire, Event.readLastRequestTime ((now : Int) - last),
       Event.lockRelease] := by
  simp only [gateEvents, h]
  rfl

theorem pm_decodeErr (env : Env) {msg : SqsMessage}
    (sqsURL s3Bucket : String) (g : Int) (last : Nat)
    (hb : msg.body = none) :
    processMessage env msg sqsURL s3Bucket g last =
      ⟨Outcome.decodeError, [], last⟩ := by
  simp only [processMessage, hb]

theorem pm_panicPath (env : Env) {msg : SqsMessage}
    {m : List (String × JsonValue)} (sqsURL s3Bucket : String) (g : Int)
    (last : Nat) (hb : msg.body = some m)
    (hp : assertString (mapGet m "s3Location") = none) :
    processMessage env msg sqsURL s3Bucket g last =
      ⟨Outcome.panicked "s3Location", [], last⟩ := by
  simp only [processMessage, hb, hp]

theorem pm_panicUser (env : Env) {msg : SqsMessage}
    {m : List (String × JsonValue)} {path : String}
    (sqsURL s3Bucket : String) (g : Int) (last : Nat)
    (hb : msg.body = some m)
    (hp : assertString (mapGet m "s3Location") = some path)
    (hu : assertString (mapGet m "user_id") = none) :
    processMessage env msg sqsURL s3Bucket g last =
      ⟨Outcome.panicked "user_id", [], last⟩ := by
  simp only [processMessage, hb, hp, hu]

theorem pm_panicScreen (env : Env) {msg : SqsMessage}
    {m : List (String × JsonValue)} {path uid : String}
    (sqsURL s3Bucket : String) (g : Int) (last : Nat)
    (hb : msg.body = some m)
    (hp : assertString (mapGet m "s3Location") = some path)
    (hu : assertString (mapGet m "user_id") = some uid)
    (hs : assertString (mapGet m "screen_id") = none) :
    processMessage env msg sqsURL s3Bucket g last =
      ⟨Outcome.panicked "screen_id", [], last⟩ := by
  simp only [processMessage, hb, hp, hu, hs]

theorem pm_fetchErr {env : Env} {msg : SqsMessage}
    {m : List (String × JsonValue)} {path uid sid e : String}
    {sqsURL s3Bucket : String} {g : Int} {last : Nat}
    (hb : msg.body = some m)
    (hp : assertString (mapGet m "s3Location") = some path)
    (hu : assertString (mapGet m "user_id") = some uid)
    (hs : assertString (mapGet m "screen_id") = some sid)
    (hdl : (downloadFileFromS3 env s3Bucket path).1 = Except.error e) :
    processMessage env msg sqsURL s3Bucket g last =
      ⟨Outcome.fetchFailed,
       gateEvents last env.now g ++ [Event.s3Fetch s3Bucket path], last⟩ := by
  simp only [processMessage, hb, hp, hu, hs, hdl]

theorem pm_extractErr {env : Env} {msg : SqsMessage}
    {m : List (String × JsonValue)} {path uid sid : String}
    {fileContent : List Nat} {e : String}
    {sqsURL s3Bucket : String} {g : Int} {last : Nat}
    (hb : msg.body = some m)
    (hp : assertString (mapGet m "s3Location") = some path)
    (hu : assertString (mapGet m "user_id") = some uid)
    (hs : assertString (mapGet m "screen_id") = some sid)
    (hdl : (downloadFileFromS3 env s3Bucket path).1 = Except.ok fileContent)
    (hx : env.sendPDF2Grobid fileContent = Except.error e) :
    processMessage env msg sqsURL s3Bucket g last =
      ⟨Outcome.extractFailed,
       gateEvents last env.now g ++
         [Event.s3Fetch s3Bucket path, Event.grobidExtract fileContent],
       last⟩ := by
  simp only [processMessage, hb, hp, hu, hs, hdl, hx]

theorem pm_tidyErr {env : Env} {msg : SqsMessage}
    {m : List (String × JsonValue)} {path uid sid : String}
    {fileContent : List Nat} {crude e : String}
    {sqsURL s3Bucket : String} {g : Int} {last : Nat}
    (hb : msg.body = some m)
    (hp : assertString (mapGet m "s3Location") = some path)
    (hu : assertString (mapGet m "user_id") = some uid)
    (hs : assertString (mapGet m "screen_id") = some sid)
    (hdl : (downloadFileFromS3 env s3Bucket path).1 = Except.ok fileContent)
    (hx : env.sendPDF2Grobid fileContent = Except.ok crude)
    (ht : env.tidyUpGrobidResponse crude = Except.error e) :
    processMessage env msg sqsURL s3Bucket g last =
      ⟨Outcome.tidyFailed,
       gateEvents last env.now g ++
         [Event.s3Fetch s3Bucket path, Event.grobidExtract fileContent,
          Event.tidyGrobidCall crude],
       last⟩ := by
  simp only [processMessage, hb, hp, hu, hs, hdl, hx, ht]

theorem pm_crossRefErr {env : Env} {msg : SqsMessage}
    {m : List (String × JsonValue)} {path uid sid : String}
    {fileContent : List Nat} {crude : String} {t : TidyGrobidResponse}
    {e : String} {sqsURL s3Bucket : String} {g : Int} {last : Nat}
    (hb : msg.body = some m)
    (hp : assertString (mapGet m "s3Location") = some path)
    (hu : assertString (mapGet m "user_id") = some uid)
    (hs : assertString (mapGet m "screen_id") = some sid)
    (hdl : (downloadFileFromS3 env s3Bucket path).1 = Except.ok fileContent)
    (hx : env.sendPDF2Grobid fileContent = Except.ok crude)
    (ht : env.tidyUpGrobidResponse crude = Except.ok t)
    (hc : env.crossReferenceData t.Doi = Except.error e) :
    processMessage env msg sqsURL s3Bucket g last =
      ⟨Outcome.crossRefFailed,
       gateEvents last env.now g ++
         [Event.s3Fetch s3Bucket path, Event.grobidExtract fileContent,
          Event.tidyGrobidCall crude, Event.crossRefCall t.Doi],
       last⟩ := by
  simp only [processMessage, hb, hp, hu, hs, hdl, hx, ht, hc]

theorem pm_successOk {env : Env} {msg : SqsMessage}
    {m : List (String × JsonValue)} {path uid sid : String}
    {fileContent : List Nat} {crude : String} {t : TidyGrobidResponse}
    {crudeXref : String} {sqsURL s3Bucket : String} {g : Int} {last : Nat}
    (hb : msg.body = some m)
    (hp : assertString (mapGet m "s3Location") = some path)
    (hu : assertString (mapGet m "user_id") = some uid)
    (hs : assertString (mapGet m "screen_id") = some sid)
    (hdl : (downloadFileFromS3 env s3Bucket path).1 = Except.ok fileContent)
    (hx : env.sendPDF2Grobid fileContent = Except.ok crude)
    (ht : env.tidyUpGrobidResponse crude = Except.ok t)
    (hc : env.crossReferenceData t.Doi = Except.ok crudeXref)
    (hv : env.changeMessageVisibility ⟨sqsURL, msg.receiptHandle, 30⟩ =
      Except.ok ()) :
    processMessage env msg sqsURL s3Bucket g last =
      ⟨Outcome.completed true,
       successEvents env msg.receiptHandle path sqsURL s3Bucket g last
         fileContent crude t.Doi crudeXref,
       env.now2⟩ := by
  simp only [processMessage, successEvents, hb, hp, hu, hs, hdl, hx, ht, hc, hv]

theorem pm_successErr {env : Env} {msg : SqsMessage}
    {m : List (String × JsonValue)} {path uid sid : String}
    {fileContent : List Nat} {crude : String} {t : TidyGrobidResponse}
    {crudeXref e : String} {sqsURL s3Bucket : String} {g : Int} {last : Nat}
    (hb : msg.body = some m)
    (hp : assertString (mapGet m "s3Location") = some path)
    (hu : assertString (mapGet m "user_id") = some uid)
    (hs : assertString (mapGet m "screen_id") = some sid)
    (hdl : (downloadFileFromS3 env s3Bucket path).1 = Except.ok fileContent)
    (hx : env.sendPDF2Grobid fileContent = Except.ok crude)
    (ht : env.tidyUpGrobidResponse crude = Except.ok t)
    (hc : env.crossReferenceData t.Doi = Except.ok crudeXref)
    (hv : env.changeMessageVisibility ⟨sqsURL, msg.receiptHandle, 30⟩ =
      Except.error e) :
    processMessage env msg sqsURL s3Bucket g last =
      ⟨Outcome.completed false,
       successEvents env msg.receiptHandle path sqsURL s3Bucket g last
         fileContent crude t.Doi crudeXref,
       env.now2⟩ := by
  simp only [processMessage, successEvents, hb, hp, hu, hs, hdl, hx, ht, hc, hv]

/-- Claim C1, counterexample: the message body
`{"s3Location":"docs/1.pdf","user_id":"u1"}` decodes as JSON but is missing
`screen_id`.  Processing does not fail as a decode error: it hits the
failed type assertion `msgData["screen_id"].(string)`, i.e. a Go runtime
panic (no downstream call is made, but the panic is unrecovered).  In the
worker loop the panic kills the worker: with this message in front of a
well-formed one, the well-formed one — which alone would complete — is
never processed, so the failure does not abort only that message. -/
theorem claim1_counterexample :
    (processMessage envOK msgMissingScreen "queue" "bucket" 5 0).outcome =
      Outcome.panicked "screen_id" ∧
    (processMessage envOK msgMissingScreen "queue" "bucket" 5 0).outcome ≠
      Outcome.decodeError ∧
    (processMessage envOK msgMissingScreen "queue" "bucket" 5 0).events = [] ∧
    workerRun envOK [msgMissingScreen, msgGood] "queue" "bucket" 5 0 =
      ([Outcome.panicked "screen_id"], 0) ∧
    workerRun envOK [msgGood] "queue" "bucket" 5 0 =
      ([Outcome.completed true], 101) := by
  decide

/-- Claim C1 as amended: a message whose body fails to decode as JSON is a
decode error with zero downstream calls and aborts only that message (the
worker loop continues with the remaining messages); but a message whose
body decodes as JSON while missing one of the three required fields (or
holding a non-string value there) instead fails the type assertion with a
runtime panic — still zero downstream calls and an unchanged shared
timestamp, but it is not treated as a decode error, and the unrecovered
panic terminates the worker loop, so no later message is processed. -/
theorem claim1_amended_thm (env : Env) (msg : SqsMessage)
    (sqsURL s3Bucket : String) (g : Int) (last : Nat)
    (rest : List SqsMessage) :
    (msg.body = none →
      processMessage env msg sqsURL s3Bucket g last =
        ⟨Outcome.decodeError, [], last⟩ ∧
      workerRun env (msg :: rest) sqsURL s3Bucket g last =
        (Outcome.decodeError ::
          (workerRun env rest sqsURL s3Bucket g last).1,
         (workerRun env rest sqsURL s3Bucket g last).2)) ∧
    (∀ m, msg.body = some m →
      (assertString (mapGet m "s3Location") = none ∨
       assertString (mapGet m "user_id") = none ∨
       assertString (mapGet m "screen_id") = none) →
      ∃ k, processMessage env msg sqsURL s3Bucket g last =
          ⟨Outcome.panicked k, [], last⟩ ∧
        workerRun env (msg :: rest) sqsURL s3Bucket g last =
          ([Outcome.panicked k], last)) := by
  constructor
  · intro hb
    have h1 := pm_decodeErr env sqsURL s3Bucket g last hb
    exact ⟨h1, by simp only [workerRun, h1]⟩
  · intro m hb hbad
    rcases hP : assertString (mapGet m "s3Location") with _ | path
    · have h1 := pm_panicPath env sqsURL s3Bucket g last hb hP
      exact ⟨"s3Location", h1, by simp only [workerRun, h1]⟩
    · rcases hU : assertString (mapGet m "user_id") with _ | uid
      · have h1 := pm_panicUser env sqsURL s3Bucket g last hb hP hU
        exact ⟨"user_id", h1, by simp only [workerRun, h1]⟩
      · rcases hS : assertString (mapGet m "screen_id") with _ | sid
        · have h1 :=
            pm_panicScreen env sqsURL s3Bucket g last hb hP hU hS
          exact ⟨"screen_id", h1, by simp only [workerRun, h1]⟩
        · rcases hbad with h | h | h
          · rw [hP] at h; cases h
          · rw [hU] at h; cases h
          · rw [hS] at h; cases h

/-- Witness for `claim1_amended_thm` at concrete inputs: a non-JSON body is
a decode error, and a body missing `screen_id` panics. -/
theorem claim1_amended_witness :
    processMessage envOK msgBadJson "queue" "bucket" 5 0 =
      ⟨Outcome.decodeError, [], 0⟩ ∧
    ∃ k, processMessage envOK msgMissingScreen "queue" "bucket" 5 0 =
      ⟨Outcome.panicked k, [], 0⟩ := by
  refine ⟨((claim1_amended_thm envOK msgBadJson "queue" "bucket" 5 0 []).1 rfl).1, ?_⟩
  obtain ⟨k, hk, -⟩ :=
    (claim1_amended_thm envOK msgMissingScreen "queue" "bucket" 5 0 []).2
      [("s3Location", JsonValue.jstr "docs/1.pdf"),
       ("user_id", JsonValue.jstr "u1")] rfl
      (Or.inr (Or.inr (by decide)))
  exact ⟨k, hk⟩

/-- Claim C7: in every invocation, the read of the shared timestamp and the
later stamp each happen at mutex depth 1 (inside the critical section of
the one shared lock), every sleep happens at mutex depth 0 (outside any
critical section), and locks and unlocks are balanced — so a worker never
holds the lock across the sleep, and another worker is free to evaluate
the gate while this one sleeps. -/
theorem claim7_thm (env : Env) (msg : SqsMessage)
    (sqsURL s3Bucket : String) (g : Int) (last : Nat) :
    lockDiscipline 0 (processMessage env msg sqsURL s3Bucket g last).events =
      true := by
  rcases hb : msg.body with _ | m
  · rw [pm_decodeErr env sqsURL s3Bucket g last hb]
    rfl
  · rcases hP : assertString (mapGet m "s3Location") with _ | path
    · rw [pm_panicPath env sqsURL s3Bucket g last hb hP]
      rfl
    · rcases hU : assertString (mapGet m "user_id") with _ | uid
      · rw [pm_panicUser env sqsURL s3Bucket g last hb hP hU]
        rfl
      · rcases hS : assertString (mapGet m "screen_id") with _ | sid
        · rw [pm_panicScreen env sqsURL s3Bucket g last hb hP hU hS]
          rfl
        · rcases hdl : (downloadFileFromS3 env s3Bucket path).1 with e | bytes
          · rw [pm_fetchErr hb hP hU hS hdl]
            rcases hg : rateGateSleep last env.now g with _ | d
            · rw [gateEvents_eq_none hg]
              rfl
            · rw [gateEvents_eq_some hg]
              rfl
          · rcases hx : env.sendPDF2Grobid bytes with e | crude
            · rw [pm_extractErr hb hP hU hS hdl hx]
              rcases hg : rateGateSleep last env.now g with _ | d
              · rw [gateEvents_eq_none hg]
                rfl
              · rw [gateEvents_eq_some hg]
                rfl
            · rcases ht : env.tidyUpGrobidResponse crude with e | t
              · rw [pm_tidyErr hb hP hU hS hdl hx ht]
                rcases hg : rateGateSleep last env.now g with _ | d
                · rw [gateEvents_eq_none hg]
                  rfl
                · rw [gateEvents_eq_some hg]
                  rfl
              · rcases hc : env.crossReferenceData t.Doi with e | x
                · rw [pm_crossRefErr hb hP hU hS hdl hx ht hc]
                  rcases hg : rateGateSleep last env.now g with _ | d
                  · rw [gateEvents_eq_none hg]
                    rfl
                  · rw [gateEvents_eq_some hg]
                    rfl
                · rcases hv : env.changeMessageVisibility
                      ⟨sqsURL, msg.receiptHandle, 30⟩ with e | u
                  · rw [pm_successErr hb hP hU hS hdl hx ht hc hv]
                    rcases hg : rateGateSleep last env.now g with _ | d
                    · rw [successEvents, gateEvents_eq_none hg]
                      rfl
                    · rw [successEvents, gateEvents_eq_some hg]
                      rfl
                  · rw [pm_successOk hb hP hU hS hdl hx ht hc (by rw [hv])]
                    rcases hg : rateGateSleep last env.now g with _ | d
                    · rw [successEvents, gateEvents_eq_none hg]
                      rfl
                    · rw [successEvents, gateEvents_eq_some hg]
                      rfl

/-- Claim C2, counterexample: with a well-formed message and a gap still
open (last stamp 50, clock 100, minimum gap 1000), the trace begins with
the gate — lock, elapsed-time read, unlock, sleep — and only then performs
the S3 fetch.  So the RateGate acquire step does not occur after the object
has been fetched; it precedes (and therefore also gates) the storage
fetch, refuting that only the extraction call is gated. -/
theorem claim2_counterexample :
    allPrecede isFetchEvent isAcquireEvent
      (processMessage envOK msgGood "queue" "bucket" 1000 50).events = false ∧
    (processMessage envOK msgGood "queue" "bucket" 1000 50).events.take 5 =
      [Event.lockAcquire, Event.readLastRequestTime 50, Event.lockRelease,
       Event.sleep 950, Event.s3Fetch "bucket" "docs/1.pdf"] := by
  decide

/-- Claim C2 as amended: the RateGate acquire step (elapsed-time read and
any sleep) occurs after the payload is decoded and before the storage
fetch, so it gates entry to the fetch-then-extraction call sequence rather
than the extraction call alone: in every trace each gate event precedes
every S3 fetch event and every extraction event, the fetch precedes the
extraction, and whenever a fetch happens the gate was evaluated exactly
once, before it. -/
theorem claim2_amended_thm (env : Env) (msg : SqsMessage)
    (sqsURL s3Bucket : String) (g : Int) (last : Nat) :
    allPrecede isAcquireEvent isFetchEvent
      (processMessage env msg sqsURL s3Bucket g last).events = true ∧
    allPrecede isAcquireEvent isExtractEvent
      (processMessage env msg sqsURL s3Bucket g last).events = true ∧
    allPrecede isFetchEvent isExtractEvent
      (processMessage env msg sqsURL s3Bucket g last).events = true ∧
    (countEvents isFetchEvent
        (processMessage env msg sqsURL s3Bucket g last).events ≠ 0 →
      countEvents isReadEvent
          (processMessage env msg sqsURL s3Bucket g last).events = 1 ∧
      allPrecede isReadEvent isFetchEvent
          (processMessage env msg sqsURL s3Bucket g last).events = true) := by
  rcases hb : msg.body with _ | m
  · rw [pm_decodeErr env sqsURL s3Bucket g last hb]
    exact ⟨rfl, rfl, rfl, fun h => absurd rfl h⟩
  · rcases hP : assertString (mapGet m "s3Location") with _ | path
    · rw [pm_panicPath env sqsURL s3Bucket g last hb hP]
      exact ⟨rfl, rfl, rfl, fun h => absurd rfl h⟩
    · rcases hU : assertString (mapGet m "user_id") with _ | uid
      · rw [pm_panicUser env sqsURL s3Bucket g last hb hP hU]
        exact ⟨rfl, rfl, rfl, fun h => absurd rfl h⟩
      · rcases hS : assertString (mapGet m "screen_id") with _ | sid
        · rw [pm_panicScreen env sqsURL s3Bucket g last hb hP hU hS]
          exact ⟨rfl, rfl, rfl, fun h => absurd rfl h⟩
        · rcases hdl : (downloadFileFromS3 env s3Bucket path).1 with e | bytes
          · rw [pm_fetchErr hb hP hU hS hdl]
            rcases hg : rateGateSleep last env.now g with _ | d
            · rw [gateEvents_eq_none hg]
              exact ⟨rfl, rfl, rfl, fun _ => ⟨rfl, rfl⟩⟩
            · rw [gateEvents_eq_some hg]
              exact ⟨rfl, rfl, rfl, fun _ => ⟨rfl, rfl⟩⟩
          · rcases hx : env.sendPDF2Grobid bytes with e | crude
            · rw [pm_extractErr hb hP hU hS hdl hx]
              rcases hg : rateGateSleep last env.now g with _ | d
              · rw [gateEvents_eq_none hg]
                exact ⟨rfl, rfl, rfl, fun _ => ⟨rfl, rfl⟩⟩
              · rw [gateEvents_eq_some hg]
                exact ⟨rfl, rfl, rfl, fun _ => ⟨rfl, rfl⟩⟩
            · rcases ht : env.tidyUpGrobidResponse crude with e | t
              · rw [pm_tidyErr hb hP hU hS hdl hx ht]
                rcases hg : rateGateSleep last env.now g with _ | d
                · rw [gateEvents_eq_none hg]
                  exact ⟨rfl, rfl, rfl, fun _ => ⟨rfl, rfl⟩⟩
                · rw [gateEvents_eq_some hg]
                  exact ⟨rfl, rfl, rfl, fun _ => ⟨rfl, rfl⟩⟩
              · rcases hc : env.crossReferenceData t.Doi with e | x
                · rw [pm_crossRefErr hb hP hU hS hdl hx ht hc]
                  rcases hg : rateGateSleep last env.now g with _ | d
                  · rw [gateEvents_eq_none hg]
                    exact ⟨rfl, rfl, rfl, fun _ => ⟨rfl, rfl⟩⟩
                  · rw [gateEvents_eq_some hg]
                    exact ⟨rfl, rfl, rfl, fun _ => ⟨rfl, rfl⟩⟩
                · rcases hv : env.changeMessageVisibility
                      ⟨sqsURL, msg.receiptHandle, 30⟩ with e | u
                  · rw [pm_successErr hb hP hU hS hdl hx ht hc hv]
                    rcases hg : rateGateSleep last env.now g with _ | d
                    · rw [successEvents, gateEvents_eq_none hg]
                      exact ⟨rfl, rfl, rfl, fun _ => ⟨rfl, rfl⟩⟩
                    · rw [successEvents, gateEvents_eq_some hg]
                      exact ⟨rfl, rfl, rfl, fun _ => ⟨rfl, rfl⟩⟩
                  · rw [pm_successOk hb hP hU hS hdl hx ht hc (by rw [hv])]
                    rcases hg : rateGateSleep last env.now g with _ | d
                    · rw [successEvents, gateEvents_eq_none hg]
                      exact ⟨rfl, rfl, rfl, fun _ => ⟨rfl, rfl⟩⟩
                    · rw [successEvents, gateEvents_eq_some hg]
                      exact ⟨rfl, rfl, rfl, fun _ => ⟨rfl, rfl⟩⟩

/-- Witness for `claim2_amended_thm` at a concrete input: a well-formed
message against the all-success environment did perform a fetch, and the
gate read happened exactly once, before it. -/
theorem claim2_amended_witness :
    countEvents isReadEvent
        (processMessage envOK msgGood "queue" "bucket" 1000 50).events = 1 ∧
    allPrecede isReadEvent isFetchEvent
        (processMessage envOK msgGood "queue" "bucket" 1000 50).events = true := by
  exact (claim2_amended_thm envOK msgGood "queue" "bucket" 1000 50).2.2.2
    (by decide)

/-- Claim C3, counterexample: in an environment where the extraction call
completes (exactly one extraction event occurs) but the subsequent tidy
(normalization) stage fails, the shared timestamp is never stamped: no
stamp event occurs and `lastRequestTime` is left at its initial value 0
although the stamping clock reads 101.  This refutes that the timestamp is
stamped immediately after the extraction call returns regardless of later
stage failures. -/
theorem claim3_counterexample :
    countEvents isExtractEvent
      (processMessage envTidyFail msgGood "queue" "bucket" 5 0).events = 1 ∧
    countEvents isStampEvent
      (processMessage envTidyFail msgGood "queue" "bucket" 5 0).events = 0 ∧
    (processMessage envTidyFail msgGood "queue" "bucket" 5 0).lastRequestTime
      = 0 ∧
    envTidyFail.now2 = 101 := by
  decide

/-- Claim C3 as amended: the shared timestamp is stamped to the current
time exactly once per fully successful pipeline — after the
cross-reference (enrichment) stages, not immediately after the extraction
call — and only on invocations in which extraction, normalization and
enrichment all succeed; it is stamped before the visibility-extension call
and whether or not that final call succeeds. -/
theorem claim3_amended_thm (env : Env) (msg : SqsMessage)
    (m : List (String × JsonValue)) (path uid sid : String)
    (fileContent : List Nat) (crude : String) (t : TidyGrobidResponse)
    (x sqsURL s3Bucket : String) (g : Int) (last : Nat)
    (hb : msg.body = some m)
    (hp : assertString (mapGet m "s3Location") = some path)
    (hu : assertString (mapGet m "user_id") = some uid)
    (hs : assertString (mapGet m "screen_id") = some sid)
    (hdl : (downloadFileFromS3 env s3Bucket path).1 = Except.ok fileContent)
    (hx : env.sendPDF2Grobid fileContent = Except.ok crude)
    (ht : env.tidyUpGrobidResponse crude = Except.ok t)
    (hc : env.crossReferenceData t.Doi = Except.ok x) :
    (processMessage env msg sqsURL s3Bucket g last).lastRequestTime =
      env.now2 ∧
    countEvents isStampEvent
      (processMessage env msg sqsURL s3Bucket g last).events = 1 ∧
    allPrecede isCrossRefEvent isStampEvent
      (processMessage env msg sqsURL s3Bucket g last).events = true ∧
    allPrecede isStampEvent isExtensionEvent
      (processMessage env msg sqsURL s3Bucket g last).events = true ∧
    ∃ b, (processMessage env msg sqsURL s3Bucket g last).outcome =
      Outcome.completed b := by
  rcases hv : env.changeMessageVisibility
      ⟨sqsURL, msg.receiptHandle, 30⟩ with e | u
  · rw [pm_successErr hb hp hu hs hdl hx ht hc hv]
    rcases hg : rateGateSleep last env.now g with _ | d
    · rw [successEvents, gateEvents_eq_none hg]
      exact ⟨rfl, rfl, rfl, rfl, false, rfl⟩
    · rw [successEvents, gateEvents_eq_some hg]
      exact ⟨rfl, rfl, rfl, rfl, false, rfl⟩
  · rw [pm_successOk hb hp hu hs hdl hx ht hc (by rw [hv])]
    rcases hg : rateGateSleep last env.now g with _ | d
    · rw [successEvents, gateEvents_eq_none hg]
      exact ⟨rfl, rfl, rfl, rfl, true, rfl⟩
    · rw [successEvents, gateEvents_eq_some hg]
      exact ⟨rfl, rfl, rfl, rfl, true, rfl⟩

/-- Witness for `claim3_amended_thm`: with the environment in which only
the final visibility extension fails, the timestamp is still stamped (to
101), exactly once, and processing still completes. -/
theorem claim3_amended_witness :
    (processMessage envVisFail msgGood "queue" "bucket" 5 0).lastRequestTime
      = 101 ∧
    countEvents isStampEvent
      (processMessage envVisFail msgGood "queue" "bucket" 5 0).events = 1 ∧
    ∃ b, (processMessage envVisFail msgGood "queue" "bucket" 5 0).outcome =
      Outcome.completed b := by
  have h := claim3_amended_thm envVisFail msgGood
    [("s3Location", JsonValue.jstr "docs/1.pdf"),
     ("user_id", JsonValue.jstr "u1"),
     ("screen_id", JsonValue.jstr "s1")]
    "docs/1.pdf" "u1" "s1" [1, 2, 3] "crudeGrobid" ⟨"10.1/x"⟩ "crudeXref"
    "queue" "bucket" 5 0 rfl (by decide) (by decide) (by decide)
    rfl rfl rfl rfl
  exact ⟨h.1, h.2.1, h.2.2.2.2⟩

/-- Claim C4: for every decodable message, processing reaches the Extended
state (a completed outcome, in which the visibility extension is
requested) iff the storage fetch, the extraction, the normalization and
the enrichment lookup all succeed; and each single-stage failure yields
the corresponding aborted outcome with zero calls to every stage past the
failure point — in particular a storage fetch error yields zero
extraction, tidy, enrichment and extension calls. -/
theorem claim4_thm (env : Env) (msg : SqsMessage)
    (m : List (String × JsonValue)) (path uid sid sqsURL s3Bucket : String)
    (g : Int) (last : Nat)
    (hb : msg.body = some m)
    (hp : assertString (mapGet m "s3Location") = some path)
    (hu : assertString (mapGet m "user_id") = some uid)
    (hs : assertString (mapGet m "screen_id") = some sid) :
    ((∃ b, (processMessage env msg sqsURL s3Bucket g last).outcome =
        Outcome.completed b) ↔
      (∃ fileContent crude t x,
        (downloadFileFromS3 env s3Bucket path).1 = Except.ok fileContent ∧
        env.sendPDF2Grobid fileContent = Except.ok crude ∧
        env.tidyUpGrobidResponse crude = Except.ok t ∧
        env.crossReferenceData t.Doi = Except.ok x)) ∧
    (∀ e, (downloadFileFromS3 env s3Bucket path).1 = Except.error e →
      (processMessage env msg sqsURL s3Bucket g last).outcome =
        Outcome.fetchFailed ∧
      countEvents isExtractEvent
        (processMessage env msg sqsURL s3Bucket g last).events = 0 ∧
      countEvents isTidyEvent
        (processMessage env msg sqsURL s3Bucket g last).events = 0 ∧
      countEvents isCrossRefEvent
        (processMessage env msg sqsURL s3Bucket g last).events = 0 ∧
      countEvents isExtensionEvent
        (processMessage env msg sqsURL s3Bucket g last).events = 0) ∧
    (∀ fileContent e,
      (downloadFileFromS3 env s3Bucket path).1 = Except.ok fileContent →
      env.sendPDF2Grobid fileContent = Except.error e →
      (processMessage env msg sqsURL s3Bucket g last).outcome =
        Outcome.extractFailed ∧
      countEvents isTidyEvent
        (processMessage env msg sqsURL s3Bucket g last).events = 0 ∧
      countEvents isCrossRefEvent
        (processMessage env msg sqsURL s3Bucket g last).events = 0 ∧
      countEvents isExtensionEvent
        (processMessage env msg sqsURL s3Bucket g last).events = 0) ∧
    (∀ fileContent crude e,
      (downloadFileFromS3 env s3Bucket path).1 = Except.ok fileContent →
      env.sendPDF2Grobid fileContent = Except.ok crude →
      env.tidyUpGrobidResponse crude = Except.error e →
      (processMessage env msg sqsURL s3Bucket g last).outcome =
        Outcome.tidyFailed ∧
      countEvents isCrossRefEvent
        (processMessage env msg sqsURL s3Bucket g last).events = 0 ∧
      countEvents isExtensionEvent
        (processMessage env msg sqsURL s3Bucket g last).events = 0) ∧
    (∀ fileContent crude t e,
      (downloadFileFromS3 env s3Bucket path).1 = Except.ok fileContent →
      env.sendPDF2Grobid fileContent = Except.ok crude →
      env.tidyUpGrobidResponse crude = Except.ok t →
      env.crossReferenceData t.Doi = Except.error e →
      (processMessage env msg sqsURL s3Bucket g last).outcome =
        Outcome.crossRefFailed ∧
      countEvents isExtensionEvent
        (processMessage env msg sqsURL s3Bucket g last).events = 0) := by
  refine ⟨⟨?_, ?_⟩, ?_, ?_, ?_, ?_⟩
  · rintro ⟨b, hcompl⟩
    rcases hdl : (downloadFileFromS3 env s3Bucket path).1 with e | fileContent
    · rw [pm_fetchErr hb hp hu hs hdl] at hcompl
      simp at hcompl
    · rcases hx : env.sendPDF2Grobid fileContent with e | crude
      · rw [pm_extractErr hb hp hu hs hdl hx] at hcompl
        simp at hcompl
      · rcases ht : env.tidyUpGrobidResponse crude with e | t
        · rw [pm_tidyErr hb hp hu hs hdl hx ht] at hcompl
          simp at hcompl
        · rcases hc : env.crossReferenceData t.Doi with e | x
          · rw [pm_crossRefErr hb hp hu hs hdl hx ht hc] at hcompl
            simp at hcompl
          · exact ⟨fileContent, crude, t, x, rfl, hx, ht, hc⟩
  · rintro ⟨fileContent, crude, t, x, hdl, hx, ht, hc⟩
    rcases hv : env.changeMessageVisibility
        ⟨sqsURL, msg.receiptHandle, 30⟩ with e | u
    · rw [pm_successErr hb hp hu hs hdl hx ht hc hv]
      exact ⟨false, rfl⟩
    · rw [pm_successOk hb hp hu hs hdl hx ht hc (by rw [hv])]
      exact ⟨true, rfl⟩
  · intro e hdl
    rw [pm_fetchErr hb hp hu hs hdl]
    rcases hg : rateGateSleep last env.now g with _ | d
    · rw [gateEvents_eq_none hg]
      exact ⟨rfl, rfl, rfl, rfl, rfl⟩
    · rw [gateEvents_eq_some hg]
      exact ⟨rfl, rfl, rfl, rfl, rfl⟩
  · intro fileContent e hdl hx
    rw [pm_extractErr hb hp hu hs hdl hx]
    rcases hg : rateGateSleep last env.now g with _ | d
    · rw [gateEvents_eq_none hg]
      exact ⟨rfl, rfl, rfl, rfl⟩
    · rw [gateEvents_eq_some hg]
      exact ⟨rfl, rfl, rfl, rfl⟩
  · intro fileContent crude e hdl hx ht
    rw [pm_tidyErr hb hp hu hs hdl hx ht]
    rcases hg : rateGateSleep last env.now g with _ | d
    · rw [gateEvents_eq_none hg]
      exact ⟨rfl, rfl, rfl⟩
    · rw [gateEvents_eq_some hg]
      exact ⟨rfl, rfl, rfl⟩
  · intro fileContent crude t e hdl hx ht hc
    rw [pm_crossRefErr hb hp hu hs hdl hx ht hc]
    rcases hg : rateGateSleep last env.now g with _ | d
    · rw [gateEvents_eq_none hg]
      exact ⟨rfl, rfl⟩
    · rw [gateEvents_eq_some hg]
      exact ⟨rfl, rfl⟩

/-- Witness for `claim4_thm`: a NotFound storage fetch aborts with zero
extraction and extension calls, and the all-success environment reaches a
completed outcome. -/
theorem claim4_witness :
    (processMessage envNotFound msgGood "queue" "bucket" 5 0).outcome =
      Outcome.fetchFailed ∧
    countEvents isExtractEvent
      (processMessage envNotFound msgGood "queue" "bucket" 5 0).events = 0 ∧
    countEvents isExtensionEvent
      (processMessage envNotFound msgGood "queue" "bucket" 5 0).events = 0 ∧
    ∃ b, (processMessage envOK msgGood "queue" "bucket" 5 0).outcome =
      Outcome.completed b := by
  have hnf := claim4_thm envNotFound msgGood
    [("s3Location", JsonValue.jstr "docs/1.pdf"),
     ("user_id", JsonValue.jstr "u1"),
     ("screen_id", JsonValue.jstr "s1")]
    "docs/1.pdf" "u1" "s1" "queue" "bucket" 5 0 rfl
    (by decide) (by decide) (by decide)
  have hok := claim4_thm envOK msgGood
    [("s3Location", JsonValue.jstr "docs/1.pdf"),
     ("user_id", JsonValue.jstr "u1"),
     ("screen_id", JsonValue.jstr "s1")]
    "docs/1.pdf" "u1" "s1" "queue" "bucket" 5 0 rfl
    (by decide) (by decide) (by decide)
  have h2 := hnf.2.1 "NotFound" rfl
  exact ⟨h2.1, h2.2.1, h2.2.2.2.2,
    hok.1.mpr ⟨[1, 2, 3], "crudeGrobid", ⟨"10.1/x"⟩, "crudeXref",
      rfl, rfl, rfl, rfl⟩⟩

/-- Claim C5: at the rate gate, if the elapsed time since the shared
timestamp is below the minimum gap the worker sleeps exactly the
remainder, otherwise it does not sleep; the shared timestamp starts at the
zero time, so the first acquisition (any clock reading at least the gap
after time zero) proceeds without sleeping; and in every decodable
invocation the sleeps actually performed are exactly what the gate
computes. -/
theorem claim5_thm (last now : Nat) (g : Int) :
    ((now : Int) - (last : Int) < g →
      rateGateSleep last now g = some (g - ((now : Int) - (last : Int)))) ∧
    (g ≤ (now : Int) - (last : Int) → rateGateSleep last now g = none) ∧
    (g ≤ (now : Int) → rateGateSleep 0 now g = none) ∧
    (∀ (env : Env) (msg : SqsMessage) (m : List (String × JsonValue))
        (path uid sid sqsURL s3Bucket : String),
      Env.now env = now → msg.body = some m →
      assertString (mapGet m "s3Location") = some path →
      assertString (mapGet m "user_id") = some uid →
      assertString (mapGet m "screen_id") = some sid →
      (processMessage env msg sqsURL s3Bucket g last).events.filter
          isSleepEvent =
        (rateGateSleep last now g).elim [] (fun d => [Event.sleep d])) := by
  refine ⟨fun h => ?_, fun h => ?_, fun h => ?_, ?_⟩
  · simp only [rateGateSleep]
    rw [if_pos h]
  · simp only [rateGateSleep]
    rw [if_neg (not_lt.mpr h)]
  · simp only [rateGateSleep]
    rw [if_neg]
    push_cast
    omega
  · intro env msg m path uid sid sqsURL s3Bucket hnow hb hP hU hS
    subst hnow
    rcases hdl : (downloadFileFromS3 env s3Bucket path).1 with e | bytes
    · rw [pm_fetchErr hb hP hU hS hdl]
      rcases hg : rateGateSleep last env.now g with _ | d
      · rw [gateEvents_eq_none hg]
        rfl
      · rw [gateEvents_eq_some hg]
        rfl
    · rcases hx : env.sendPDF2Grobid bytes with e | crude
      · rw [pm_extractErr hb hP hU hS hdl hx]
        rcases hg : rateGateSleep last env.now g with _ | d
        · rw [gateEvents_eq_none hg]
          rfl
        · rw [gateEvents_eq_some hg]
          rfl
      · rcases ht : env.tidyUpGrobidResponse crude with e | t
        · rw [pm_tidyErr hb hP hU hS hdl hx ht]
          rcases hg : rateGateSleep last env.now g with _ | d
          · rw [gateEvents_eq_none hg]
            rfl
          · rw [gateEvents_eq_some hg]
            rfl
        · rcases hc : env.crossReferenceData t.Doi with e | x
          · rw [pm_crossRefErr hb hP hU hS hdl hx ht hc]
            rcases hg : rateGateSleep last env.now g with _ | d
            · rw [gateEvents_eq_none hg]
              rfl
            · rw [gateEvents_eq_some hg]
              rfl
          · rcases hv : env.changeMessageVisibility
                ⟨sqsURL, msg.receiptHandle, 30⟩ with e | u
            · rw [pm_successErr hb hP hU hS hdl hx ht hc hv]
              rcases hg : rateGateSleep last env.now g with _ | d
              · rw [successEvents, gateEvents_eq_none hg]
                rfl
              · rw [successEvents, gateEvents_eq_some hg]
                rfl
            · rw [pm_successOk hb hP hU hS hdl hx ht hc (by rw [hv])]
              rcases hg : rateGateSleep last env.now g with _ | d
              · rw [successEvents, gateEvents_eq_none hg]
                rfl
              · rw [successEvents, gateEvents_eq_some hg]
                rfl

/-- Witness for `claim5_thm`: a 2-unit elapsed time against a 5-unit gap
sleeps exactly 3 units; a 100-unit elapsed time does not sleep; and the
first acquisition (timestamp 0) of a well-formed message performs no
sleep event. -/
theorem claim5_witness :
    rateGateSleep 50 52 5 = some 3 ∧
    rateGateSleep 0 100 5 = none ∧
    (processMessage envOK msgGood "queue" "bucket" 5 0).events.filter
      isSleepEvent = [] := by
  refine ⟨?_, (claim5_thm 0 100 5).2.1 (by decide), ?_⟩
  · rw [(claim5_thm 50 52 5).1 (by decide)]
    decide
  · rw [(claim5_thm 0 100 5).2.2.2 envOK msgGood
      [("s3Location", JsonValue.jstr "docs/1.pdf"),
       ("user_id", JsonValue.jstr "u1"),
       ("screen_id", JsonValue.jstr "s1")]
      "docs/1.pdf" "u1" "s1" "queue" "bucket" rfl rfl
      (by decide) (by decide) (by decide)]
    decide

/-- Claim C6: for every message that completes the enrichment stage (all
four upstream calls succeed), the visibility-extension operation is
invoked exactly once, as the final event, with that message's receipt
handle and the fixed 30-second window; if the extension call fails the
processing still ends normally with a completed outcome (non-fatal), and
if it succeeds the outcome is likewise completed. -/
theorem claim6_thm (env : Env) (msg : SqsMessage)
    (m : List (String × JsonValue)) (path uid sid : String)
    (fileContent : List Nat) (crude : String) (t : TidyGrobidResponse)
    (x sqsURL s3Bucket : String) (g : Int) (last : Nat)
    (hb : msg.body = some m)
    (hp : assertString (mapGet m "s3Location") = some path)
    (hu : assertString (mapGet m "user_id") = some uid)
    (hs : assertString (mapGet m "screen_id") = some sid)
    (hdl : (downloadFileFromS3 env s3Bucket path).1 = Except.ok fileContent)
    (hx : env.sendPDF2Grobid fileContent = Except.ok crude)
    (ht : env.tidyUpGrobidResponse crude = Except.ok t)
    (hc : env.crossReferenceData t.Doi = Except.ok x) :
    countEvents isExtensionEvent
      (processMessage env msg sqsURL s3Bucket g last).events = 1 ∧
    (processMessage env msg sqsURL s3Bucket g last).events.getLast? =
      some (Event.changeVisibility sqsURL msg.receiptHandle 30) ∧
    (env.changeMessageVisibility ⟨sqsURL, msg.receiptHandle, 30⟩ =
        Except.ok () →
      (processMessage env msg sqsURL s3Bucket g last).outcome =
        Outcome.completed true) ∧
    (∀ e, env.changeMessageVisibility ⟨sqsURL, msg.receiptHandle, 30⟩ =
        Except.error e →
      (processMessage env msg sqsURL s3Bucket g last).outcome =
        Outcome.completed false) := by
  rcases hv : env.changeMessageVisibility
      ⟨sqsURL, msg.receiptHandle, 30⟩ with e | u
  · rw [pm_successErr hb hp hu hs hdl hx ht hc hv]
    rcases hg : rateGateSleep last env.now g with _ | d
    · rw [successEvents, gateEvents_eq_none hg]
      exact ⟨rfl, rfl, fun h => Except.noConfusion h, fun e2 h => rfl⟩
    · rw [successEvents, gateEvents_eq_some hg]
      exact ⟨rfl, rfl, fun h => Except.noConfusion h, fun e2 h => rfl⟩
  · rw [pm_successOk hb hp hu hs hdl hx ht hc (by rw [hv])]
    rcases hg : rateGateSleep last env.now g with _ | d
    · rw [successEvents, gateEvents_eq_none hg]
      exact ⟨rfl, rfl, fun h => rfl, fun e2 h => Except.noConfusion h⟩
    · rw [successEvents, gateEvents_eq_some hg]
      exact ⟨rfl, rfl, fun h => rfl, fun e2 h => Except.noConfusion h⟩

/-- Witness for `claim6_thm`: the all-success run requests the extension
exactly once, as its last event, with receipt handle rh1 and 30 seconds,
and completes; the run whose extension call fails still completes. -/
theorem claim6_witness :
    countEvents isExtensionEvent
      (processMessage envOK msgGood "queue" "bucket" 5 0).events = 1 ∧
    (processMessage envOK msgGood "queue" "bucket" 5 0).events.getLast? =
      some (Event.changeVisibility "queue" "rh1" 30) ∧
    (processMessage envOK msgGood "queue" "bucket" 5 0).outcome =
      Outcome.completed true ∧
    (processMessage envVisFail msgGood "queue" "bucket" 5 0).outcome =
      Outcome.completed false := by
  have h1 := claim6_thm envOK msgGood
    [("s3Location", JsonValue.jstr "docs/1.pdf"),
     ("user_id", JsonValue.jstr "u1"),
     ("screen_id", JsonValue.jstr "s1")]
    "docs/1.pdf" "u1" "s1" [1, 2, 3] "crudeGrobid" ⟨"10.1/x"⟩ "crudeXref"
    "queue" "bucket" 5 0 rfl (by decide) (by decide) (by decide)
    rfl rfl rfl rfl
  have h2 := claim6_thm envVisFail msgGood
    [("s3Location", JsonValue.jstr "docs/1.pdf"),
     ("user_id", JsonValue.jstr "u1"),
     ("screen_id", JsonValue.jstr "s1")]
    "docs/1.pdf" "u1" "s1" [1, 2, 3] "crudeGrobid" ⟨"10.1/x"⟩ "crudeXref"
    "queue" "bucket" 5 0 rfl (by decide) (by decide) (by decide)
    rfl rfl rfl rfl
  exact ⟨h1.1, h1.2.1, h1.2.2.1 rfl, h2.2.2.2 "expired" rfl⟩

/-- Claim C8: `downloadFileFromS3` calls the backend exactly once (no
retry); on a backend fetch error it returns that error and no bytes
without ever opening (or closing) a stream; on success it opens the
stream, reads it fully and closes it — the close happening after the read
and before returning on both the read-error and the success path — and it
returns the read error with no bytes, or the fully drained bytes. -/
theorem claim8_thm (env : Env) (bucket path : String) :
    (∀ e, env.getObject bucket path = Except.error e →
      downloadFileFromS3 env bucket path =
        (Except.error e, [S3Event.getObjectCall bucket path])) ∧
    (∀ output, env.getObject bucket path = Except.ok output →
      (downloadFileFromS3 env bucket path).2 =
        [S3Event.getObjectCall bucket path, S3Event.readAllCall,
         S3Event.closeCall output.closeErr] ∧
      (∀ e, output.readAll = Except.error e →
        (downloadFileFromS3 env bucket path).1 = Except.error e) ∧
      (∀ bs, output.readAll = Except.ok bs →
        (downloadFileFromS3 env bucket path).1 = Except.ok bs)) ∧
    ((downloadFileFromS3 env bucket path).2.filter isGetObjectEvent).length
      = 1 := by
  refine ⟨?_, ?_, ?_⟩
  · intro e hgo
    simp only [downloadFileFromS3, hgo]
  · intro output hgo
    rcases hra : output.readAll with e | bs
    · simp only [downloadFileFromS3, hgo, hra]
      exact ⟨trivial, fun e2 h2 => by rw [← h2], fun bs h2 => Except.noConfusion h2⟩
    · simp only [downloadFileFromS3, hgo, hra]
      exact ⟨trivial, fun e2 h2 => Except.noConfusion h2, fun bs2 h2 => by rw [← h2]⟩
  · rcases hgo : env.getObject bucket path with e | output
    · simp only [downloadFileFromS3, hgo]
      rfl
    · rcases hra : output.readAll with e | bs
      · simp only [downloadFileFromS3, hgo, hra]
        rfl
      · simp only [downloadFileFromS3, hgo, hra]
        rfl

/-- Witness for `claim8_thm`: the NotFound backend returns the error with
only the fetch attempt in the trace (no open, no close); the healthy
backend's trace is open, full read, close, and the drained bytes are
returned. -/
theorem claim8_witness :
    downloadFileFromS3 envNotFound "bucket" "docs/1.pdf" =
      (Except.error "NotFound",
       [S3Event.getObjectCall "bucket" "docs/1.pdf"]) ∧
    (downloadFileFromS3 envOK "bucket" "docs/1.pdf").2 =
      [S3Event.getObjectCall "bucket" "docs/1.pdf", S3Event.readAllCall,
       S3Event.closeCall none] ∧
    (downloadFileFromS3 envOK "bucket" "docs/1.pdf").1 =
      Except.ok [1, 2, 3] := by
  have h1 := (claim8_thm envNotFound "bucket" "docs/1.pdf").1 "NotFound" rfl
  have h2 := (claim8_thm envOK "bucket" "docs/1.pdf").2.1 okObject rfl
  exact ⟨h1, h2.1, h2.2.2 [1, 2, 3] rfl⟩

/-- Claim C9: whenever processing does not complete (decode failure,
panic, fetch, extraction, normalization or enrichment failure), the shared
`lastRequestTime` is returned unchanged and no stamp event occurs; and
whenever it completes, the timestamp is stamped exactly once, to the
stamping clock value, and the decode plus all four external pipeline calls
necessarily succeeded. -/
theorem claim9_thm (env : Env) (msg : SqsMessage)
    (sqsURL s3Bucket : String) (g : Int) (last : Nat) :
    ((¬ ∃ b, (processMessage env msg sqsURL s3Bucket g last).outcome =
        Outcome.completed b) →
      (processMessage env msg sqsURL s3Bucket g last).lastRequestTime =
        last ∧
      countEvents isStampEvent
        (processMessage env msg sqsURL s3Bucket g last).events = 0) ∧
    (∀ b, (processMessage env msg sqsURL s3Bucket g last).outcome =
        Outcome.completed b →
      (processMessage env msg sqsURL s3Bucket g last).lastRequestTime =
        env.now2 ∧
      countEvents isStampEvent
        (processMessage env msg sqsURL s3Bucket g last).events = 1 ∧
      ∃ m path uid sid fileContent crude t x,
        msg.body = some m ∧
        assertString (mapGet m "s3Location") = some path ∧
        assertString (mapGet m "user_id") = some uid ∧
        assertString (mapGet m "screen_id") = some sid ∧
        (downloadFileFromS3 env s3Bucket path).1 = Except.ok fileContent ∧
        env.sendPDF2Grobid fileContent = Except.ok crude ∧
        env.tidyUpGrobidResponse crude = Except.ok t ∧
        env.crossReferenceData t.Doi = Except.ok x) := by
  rcases hb : msg.body with _ | m
  · rw [pm_decodeErr env sqsURL s3Bucket g last hb]
    exact ⟨fun _ => ⟨rfl, rfl⟩, fun b hb2 => nomatch hb2⟩
  · rcases hP : assertString (mapGet m "s3Location") with _ | path
    · rw [pm_panicPath env sqsURL s3Bucket g last hb hP]
      exact ⟨fun _ => ⟨rfl, rfl⟩, fun b hb2 => nomatch hb2⟩
    · rcases hU : assertString (mapGet m "user_id") with _ | uid
      · rw [pm_panicUser env sqsURL s3Bucket g last hb hP hU]
        exact ⟨fun _ => ⟨rfl, rfl⟩, fun b hb2 => nomatch hb2⟩
      · rcases hS : assertString (mapGet m "screen_id") with _ | sid
        · rw [pm_panicScreen env sqsURL s3Bucket g last hb hP hU hS]
          exact ⟨fun _ => ⟨rfl, rfl⟩, fun b hb2 => nomatch hb2⟩
        · rcases hdl : (downloadFileFromS3 env s3Bucket path).1 with e | bytes
          · rw [pm_fetchErr hb hP hU hS hdl]
            rcases hg : rateGateSleep last env.now g with _ | d
            · rw [gateEvents_eq_none hg]
              exact ⟨fun _ => ⟨rfl, rfl⟩, fun b hb2 => nomatch hb2⟩
            · rw [gateEvents_eq_some hg]
              exact ⟨fun _ => ⟨rfl, rfl⟩, fun b hb2 => nomatch hb2⟩
          · rcases hx : env.sendPDF2Grobid bytes with e | crude
            · rw [pm_extractErr hb hP hU hS hdl hx]
              rcases hg : rateGateSleep last env.now g with _ | d
              · rw [gateEvents_eq_none hg]
                exact ⟨fun _ => ⟨rfl, rfl⟩, fun b hb2 => nomatch hb2⟩
              · rw [gateEvents_eq_some hg]
                exact ⟨fun _ => ⟨rfl, rfl⟩, fun b hb2 => nomatch hb2⟩
            · rcases ht : env.tidyUpGrobidResponse crude with e | t
              · rw [pm_tidyErr hb hP hU hS hdl hx ht]
                rcases hg : rateGateSleep last env.now g with _ | d
                · rw [gateEvents_eq_none hg]
                  exact ⟨fun _ => ⟨rfl, rfl⟩, fun b hb2 => nomatch hb2⟩
                · rw [gateEvents_eq_some hg]
                  exact ⟨fun _ => ⟨rfl, rfl⟩, fun b hb2 => nomatch hb2⟩
              · rcases hc : env.crossReferenceData t.Doi with e | x
                · rw [pm_crossRefErr hb hP hU hS hdl hx ht hc]
                  rcases hg : rateGateSleep last env.now g with _ | d
                  · rw [gateEvents_eq_none hg]
                    exact ⟨fun _ => ⟨rfl, rfl⟩, fun b hb2 => nomatch hb2⟩
                  · rw [gateEvents_eq_some hg]
                    exact ⟨fun _ => ⟨rfl, rfl⟩, fun b hb2 => nomatch hb2⟩
                · rcases hv : env.changeMessageVisibility
                      ⟨sqsURL, msg.receiptHandle, 30⟩ with e | u
                  · rw [pm_successErr hb hP hU hS hdl hx ht hc hv]
                    rcases hg : rateGateSleep last env.now g with _ | d
                    · rw [successEvents, gateEvents_eq_none hg]
                      exact ⟨fun hn => absurd ⟨false, rfl⟩ hn,
                        fun b hb2 => ⟨rfl, rfl, m, path, uid, sid, bytes,
                          crude, t, x, rfl, hP, hU, hS, hdl, hx, ht, hc⟩⟩
                    · rw [successEvents, gateEvents_eq_some hg]
                      exact ⟨fun hn => absurd ⟨false, rfl⟩ hn,
                        fun b hb2 => ⟨rfl, rfl, m, path, uid, sid, bytes,
                          crude, t, x, rfl, hP, hU, hS, hdl, hx, ht, hc⟩⟩
                  · rw [pm_successOk hb hP hU hS hdl hx ht hc (by rw [hv])]
                    rcases hg : rateGateSleep last env.now g with _ | d
                    · rw [successEvents, gateEvents_eq_none hg]
                      exact ⟨fun hn => absurd ⟨true, rfl⟩ hn,
                        fun b hb2 => ⟨rfl, rfl, m, path, uid, sid, bytes,
                          crude, t, x, rfl, hP, hU, hS, hdl, hx, ht, hc⟩⟩
                    · rw [successEvents, gateEvents_eq_some hg]
                      exact ⟨fun hn => absurd ⟨true, rfl⟩ hn,
                        fun b hb2 => ⟨rfl, rfl, m, path, uid, sid, bytes,
                          crude, t, x, rfl, hP, hU, hS, hdl, hx, ht, hc⟩⟩

/-- Witness for `claim9_thm`: the tidy-failure run leaves the timestamp at
its initial value 0 with no stamp event, while the all-success run stamps
it (to 101) exactly once. -/
theorem claim9_witness :
    (processMessage envTidyFail msgGood "queue" "bucket" 5 0).lastRequestTime
      = 0 ∧
    countEvents isStampEvent
      (processMessage envTidyFail msgGood "queue" "bucket" 5 0).events = 0 ∧
    (processMessage envOK msgGood "queue" "bucket" 5 0).lastRequestTime
      = 101 ∧
    countEvents isStampEvent
      (processMessage envOK msgGood "queue" "bucket" 5 0).events = 1 := by
  have h1 := (claim9_thm envTidyFail msgGood "queue" "bucket" 5 0).1
    (by decide)
  have h2 := (claim9_thm envOK msgGood "queue" "bucket" 5 0).2 true
    (by decide)
  exact ⟨h1.1, h1.2, h2.1, h2.2.1⟩

/-- Claim C10: the decoded `user_id` and `screen_id` values never influence
anything the pipeline does: two decodable messages with the same
`s3Location` and the same receipt handle, differing arbitrarily in those
two fields, produce identical results in every respect — same outcome,
same event trace (hence identical fetch, extraction, enrichment and
visibility-extension calls) and same final timestamp. -/
theorem claim10_thm (env : Env) (m1 m2 : List (String × JsonValue))
    (rh path u1 s1 u2 s2 sqsURL s3Bucket : String) (g : Int) (last : Nat)
    (hp1 : assertString (mapGet m1 "s3Location") = some path)
    (hu1 : assertString (mapGet m1 "user_id") = some u1)
    (hs1 : assertString (mapGet m1 "screen_id") = some s1)
    (hp2 : assertString (mapGet m2 "s3Location") = some path)
    (hu2 : assertString (mapGet m2 "user_id") = some u2)
    (hs2 : assertString (mapGet m2 "screen_id") = some s2) :
    processMessage env ⟨some m1, rh⟩ sqsURL s3Bucket g last =
      processMessage env ⟨some m2, rh⟩ sqsURL s3Bucket g last := by
  simp only [processMessage, hp1, hu1, hs1, hp2, hu2, hs2]

/-- Witness for `claim10_thm`: `msgGood` and `msgAltIds` differ only in
`user_id` and `screen_id` and are processed identically. -/
theorem claim10_witness :
    processMessage envOK msgGood "queue" "bucket" 5 0 =
      processMessage envOK msgAltIds "queue" "bucket" 5 0 := by
  exact claim10_thm envOK
    [("s3Location", JsonValue.jstr "docs/1.pdf"),
     ("user_id", JsonValue.jstr "u1"),
     ("screen_id", JsonValue.jstr "s1")]
    [("s3Location", JsonValue.jstr "docs/1.pdf"),
     ("user_id", JsonValue.jstr "u9"),
     ("screen_id", JsonValue.jstr "s9")]
    "rh1" "docs/1.pdf" "u1" "s1" "u9" "s9" "queue" "bucket" 5 0
    (by decide) (by decide) (by decide) (by decide) (by decide) (by decide)

end GrobidHelper
